import Mathlib

/-!
Shallow embedding of the topic/message ingestion and notification-dispatch
pipeline of the `business-ideas` service (`src/db.rs`, `src/message/router.rs`).

Pure data and control flow are translated directly; effectful library calls
(Postgres via sqlx, the Telegram HTTP API via reqwest, serde_json
serialization, `tokio::spawn`) are modelled as explicit state passing plus an
environment (`Env`) carrying the outcome of each external call.  Detached
tasks created by `tokio::spawn` are returned as unexecuted `SpawnedTask`
data; running such a task is a separate function (`runSendTask`), so a
handler's return value is fixed before any spawned task resolves.
-/

namespace Ideas

/-- JSON values (`serde_json::Value`).  Numbers are modelled as integers;
none of the verified code paths inspects numeric payloads. -/
inductive Value where
  | null : Value
  | bool (b : Bool) : Value
  | num (n : Int) : Value
  | str (s : String) : Value
  | arr (elems : List Value) : Value
  | obj (fields : List (String × Value)) : Value

/-- First field with the given key in a JSON object field list. -/
def lookupField (key : String) : List (String × Value) → Option Value
  | [] => none
  | (k, v) :: fs => if k = key then some v else lookupField key fs

/-- Minimal JSON string escaping, as done by `serde_json::to_string`. -/
def escapeJsonChar (c : Char) : String :=
  if c = '"' then "\\\""
  else if c = '\\' then "\\\\"
  else if c = '\n' then "\\n"
  else String.singleton c

def escapeJson (s : String) : String :=
  String.join (s.toList.map escapeJsonChar)

mutual

/-- Rendering of a JSON value to a string (`serde_json::to_string`).
For `serde_json::Value` this serialization is total. -/
def Value.render : Value → String
  | .null => "null"
  | .bool true => "true"
  | .bool false => "false"
  | .num n => toString n
  | .str s => "\"" ++ escapeJson s ++ "\""
  | .arr xs => "[" ++ renderElems xs ++ "]"
  | .obj fs => "\x7b" ++ renderFields fs ++ "\x7d"

def renderElems : List Value → String
  | [] => ""
  | [x] => Value.render x
  | x :: y :: xs => Value.render x ++ "," ++ renderElems (y :: xs)

def renderFields : List (String × Value) → String
  | [] => ""
  | [(k, v)] => "\"" ++ escapeJson k ++ "\":" ++ Value.render v
  | (k, v) :: f :: fs =>
      "\"" ++ escapeJson k ++ "\":" ++ Value.render v ++ "," ++ renderFields (f :: fs)

end

/-- HTTP methods used by the outbound wire contract. -/
inductive Method where
  | GET : Method
  | POST : Method
deriving DecidableEq

/-- An outbound HTTP request as built by `reqwest::Client` in `router.rs`:
method, full URL, and optional JSON body (`.json(..)`). -/
structure HttpRequest where
  method : Method
  url : String
  body : Option Value

/-- `reqwest::StatusCode::is_success`: exactly the 2xx range. -/
def statusIsSuccess (s : Nat) : Bool :=
  200 ≤ s && s ≤ 299

/-- `const TELEGRAM_API_URL` (router.rs line 113). -/
def TELEGRAM_API_URL : String := "https://api.telegram.org/bot"

/-- `struct TgApi { api_key, chat_id }` (router.rs lines 115-119):
the provider-specific notification config. -/
structure TgApi where
  api_key : String
  chat_id : String
deriving DecidableEq

/-- `impl TryFrom<Value> for TgApi` (router.rs lines 121-128):
`serde_json::from_value::<TgApi>` requires an object carrying string fields
`api_key` and `chat_id` (unknown fields are ignored by serde's default). -/
def TgApi.try_from (v : Value) : Except Unit TgApi :=
  match v with
  | .obj fs =>
    match lookupField "api_key" fs, lookupField "chat_id" fs with
    | some (.str k), some (.str c) => .ok ⟨k, c⟩
    | _, _ => .error ()
  | _ => .error ()

/-- The value produced by `serde_json::to_value` on a `TgApi` when
serialization succeeds. -/
def TgApi.to_value (tg : TgApi) : Value :=
  .obj [("api_key", .str tg.api_key), ("chat_id", .str tg.chat_id)]

/-- The request issued by `TgApi::check` (router.rs lines 131-138):
`GET {TELEGRAM_API_URL}{api_key}/getMe`, no body. -/
def TgApi.checkRequest (tg : TgApi) : HttpRequest :=
  ⟨.GET, TELEGRAM_API_URL ++ tg.api_key ++ "/getMe", none⟩

/-- `TgApi::check`: issue the liveness request against the network
(modelled as a function from requests to either a status code or a
transport error) and map a response to `status().is_success()`,
a transport error to a formatted error string. -/
def TgApi.check (tg : TgApi) (net : HttpRequest → Except String Nat) :
    Except String Bool :=
  match net (TgApi.checkRequest tg) with
  | .ok s => .ok (statusIsSuccess s)
  | .error e => .error ("Failed check api_key: " ++ e)

/-- `struct Message` (db.rs lines 103-110).  `created_at` is the storage
clock value at insert time. -/
structure Message where
  id : Int
  created_at : Nat
  contacts : Value
  text : String
  topic_id : Nat

/-- `struct Topic` (db.rs lines 96-101): the stored notification config is
an opaque JSON value. -/
structure Topic where
  id : Nat
  name : String
  tg_api : Option Value

/-- The persistent store: topic and message record sets plus the
storage-assigned counters (serial message id, topic id sequence, and a
monotone clock supplying `created_at`). -/
structure Db where
  topics : List Topic
  messages : List Message
  nextTopicId : Nat
  nextMessageId : Int
  now : Nat

/-- `create_topic` (db.rs lines 112-121): insert a topic row and return it. -/
def create_topic (db : Db) (name : String) (tg_api : Option Value) :
    Topic × Db :=
  let t : Topic := ⟨db.nextTopicId, name, tg_api⟩
  (t, { db with topics := db.topics ++ [t], nextTopicId := db.nextTopicId + 1 })

/-- `get_topic` (db.rs lines 123-131): `SELECT * FROM topic WHERE id = $1`,
`fetch_optional`. -/
def get_topic (db : Db) (topic_id : Nat) : Option Topic :=
  db.topics.find? (fun t => t.id == topic_id)

/-- `create_message` (db.rs lines 133-143): insert a message row; the
referential constraint from `message.topic_id` to `topic.id` makes the
insert fail when the topic does not exist. -/
def create_message (db : Db) (contacts : Value) (text : String)
    (topic_id : Nat) : Except String (Message × Db) :=
  match get_topic db topic_id with
  | none => .error "violates foreign key constraint"
  | some _ =>
    let m : Message := ⟨db.nextMessageId, db.now, contacts, text, topic_id⟩
    .ok (m, { db with
                messages := db.messages ++ [m],
                nextMessageId := db.nextMessageId + 1,
                now := db.now + 1 })

/-- Insert a message into a list kept in descending `created_at` order. -/
def insertDesc (m : Message) : List Message → List Message
  | [] => [m]
  | x :: xs =>
    if x.created_at ≤ m.created_at then m :: x :: xs
    else x :: insertDesc m xs

/-- Sort messages by descending `created_at`. -/
def sortDesc : List Message → List Message
  | [] => []
  | x :: xs => insertDesc x (sortDesc xs)

/-- `get_messages` (db.rs lines 145-151):
`SELECT * FROM message WHERE topic_id = $1 ORDER BY created_at DESC`. -/
def get_messages (db : Db) (topic_id : Nat) : List Message :=
  sortDesc (db.messages.filter (fun m => m.topic_id == topic_id))

/-- Structured log events emitted by `router.rs` via `tracing`. -/
inductive LogEntry where
  | createMessageFailed : LogEntry
  | parseTgApiFailed (topic_id : Nat) : LogEntry
  | sentOk (message_id : Int) : LogEntry
  | sendTransportFail (message_id : Int) (err : String) : LogEntry
  | sendResponseUnreadable (message_id : Int) (err : String) : LogEntry
  | sendRejected (message_id : Int) (text : String) : LogEntry
deriving DecidableEq

/-- Warning levels: `createMessageFailed`, `sendTransportFail` and
`sendResponseUnreadable` are `error!`, `parseTgApiFailed` and
`sendRejected` are `warn!`, `sentOk` is `info!`. -/
def LogEntry.isWarning : LogEntry → Bool
  | .parseTgApiFailed _ => true
  | .sendRejected _ _ => true
  | _ => false

/-- A task detached via `tokio::spawn` inside `TgApi::send`
(router.rs lines 150-174): the outbound request it will issue and the
message id it logs about.  The task is data; nothing runs it inside a
handler. -/
structure SpawnedTask where
  request : HttpRequest
  message_id : Int

/-- The notification body built by `TgApi::send` (router.rs lines 144-148):
`format!("Topic: {}\nText: {}\nContacts: {}", topic_name, message.text,
contacts)` with `contacts = serde_json::to_string(&message.contacts)`. -/
def notificationBody (topic_name : String) (message : Message) : String :=
  "Topic: " ++ topic_name ++ "\nText: " ++ message.text ++
  "\nContacts: " ++ Value.render message.contacts

/-- The request issued by the spawned task in `TgApi::send`:
`POST {TELEGRAM_API_URL}{api_key}/sendMessage` with JSON body
`{"chat_id": chat_id, "text": message}`. -/
def TgApi.sendRequest (tg : TgApi) (topic_name : String) (message : Message) :
    HttpRequest :=
  ⟨.POST, TELEGRAM_API_URL ++ tg.api_key ++ "/sendMessage",
   some (.obj [("chat_id", .str tg.chat_id),
               ("text", .str (notificationBody topic_name message))])⟩

/-- `TgApi::send` (router.rs lines 140-175): builds the notification body and
detaches the outbound call via `tokio::spawn`, returning immediately.  The
result type records the detached task only — `send` produces no value and the
task's outcome cannot flow back to the caller. -/
def TgApi.send (tg : TgApi) (topic_name : String) (message : Message) :
    SpawnedTask :=
  ⟨TgApi.sendRequest tg topic_name message, message.id⟩

/-- Outcome of the outbound send call as seen by the spawned task: either a
transport error, or a response with a status code and a (fallibly read)
text body. -/
inductive HttpOutcome where
  | netErr (e : String) : HttpOutcome
  | resp (status : Nat) (text : Except String String) : HttpOutcome

/-- The body of the task spawned by `TgApi::send` (router.rs lines 150-174):
purely observational outcome handling — the task only logs, it modifies no
state and returns no value. -/
def runSendTask (t : SpawnedTask) (o : HttpOutcome) : LogEntry :=
  match o with
  | .netErr e => .sendTransportFail t.message_id e
  | .resp s text =>
    if statusIsSuccess s then .sentOk t.message_id
    else
      match text with
      | .error e => .sendResponseUnreadable t.message_id e
      | .ok txt => .sendRejected t.message_id txt

/-- The HTTP status codes produced by `router.rs`. -/
inductive StatusCode where
  | CREATED : StatusCode
  | BAD_REQUEST : StatusCode
  | UNAUTHORIZED : StatusCode
  | NOT_FOUND : StatusCode
  | INTERNAL_SERVER_ERROR : StatusCode
deriving DecidableEq

/-- Outcomes of the external calls a single request can perform.  `net`
answers the synchronous liveness-check request;  `to_value_result` is the
`serde_json::to_value(tg_api)` result;  the three `Fail` flags inject a
storage error into the corresponding sqlx call of the request. -/
structure Env where
  net : HttpRequest → Except String Nat
  to_value_result : Except Unit Value
  topicInsertFail : Bool
  lookupFail : Bool
  insertFail : Bool
  listFail : Bool

/-- `struct CreateTopicRequest` (router.rs lines 29-33).  A supplied
`tg_api` field has already been deserialized by the `Json` extractor. -/
structure CreateTopicRequest where
  name : String
  tg_api : Option TgApi

/-- `struct CreateTopicResponse` (router.rs lines 35-38). -/
structure CreateTopicResponse where
  id : Nat
deriving DecidableEq

/-- `struct CreateMessageRequest` (router.rs lines 40-44). -/
structure CreateMessageRequest where
  contacts : Value
  text : String

/-- Observable effect of one handler invocation: the HTTP result, the store
after the request, the synchronous outbound requests issued, the tasks
detached via `tokio::spawn`, and the log events emitted by the handler
itself (spawned tasks log separately, when run). -/
structure HOut (α : Type) where
  result : Except StatusCode α
  db : Db
  requests : List HttpRequest
  spawned : List SpawnedTask
  logs : List LogEntry

/-- `create_topic_handler` (router.rs lines 46-63): with no supplied config,
create the topic with `tg_api = None`; with a config, run `TgApi::check` —
only `Ok(true)` proceeds (storing `serde_json::to_value(tg_api).ok()`),
anything else returns 400.  A storage failure on the insert is 500. -/
def create_topic_handler (env : Env) (db : Db)
    (payload : CreateTopicRequest) : HOut CreateTopicResponse :=
  let step : Except StatusCode (Option Value) × List HttpRequest :=
    match payload.tg_api with
    | none => (.ok none, [])
    | some tg =>
      ((match TgApi.check tg env.net with
        | .ok true => .ok env.to_value_result.toOption
        | _ => .error .BAD_REQUEST),
       [TgApi.checkRequest tg])
  match step with
  | (.error c, reqs) => ⟨.error c, db, reqs, [], []⟩
  | (.ok cfg, reqs) =>
    if env.topicInsertFail then
      ⟨.error .INTERNAL_SERVER_ERROR, db, reqs, [], []⟩
    else
      let td := create_topic db payload.name cfg
      ⟨.ok ⟨td.1.id⟩, td.2, reqs, [], []⟩

/-- `create_message_handler` (router.rs lines 65-89): resolve the topic
(any lookup error is mapped to 404 by `.map_err(|_| NOT_FOUND)`, absence is
404), persist the message (failure is logged and mapped to 500 by
`log_and_raise`), then, when the topic carries a config, either warn on a
`TgApi` parse failure or detach one send task; finally return 201. -/
def create_message_handler (env : Env) (db : Db) (topic_id : Nat)
    (payload : CreateMessageRequest) : HOut StatusCode :=
  if env.lookupFail then ⟨.error .NOT_FOUND, db, [], [], []⟩
  else
    match get_topic db topic_id with
    | none => ⟨.error .NOT_FOUND, db, [], [], []⟩
    | some topic =>
      if env.insertFail then
        ⟨.error .INTERNAL_SERVER_ERROR, db, [], [], [.createMessageFailed]⟩
      else
        match create_message db payload.contacts payload.text topic_id with
        | .error _ =>
          ⟨.error .INTERNAL_SERVER_ERROR, db, [], [], [.createMessageFailed]⟩
        | .ok (message, db2) =>
          match topic.tg_api with
          | none => ⟨.ok .CREATED, db2, [], [], []⟩
          | some v =>
            match TgApi.try_from v with
            | .error _ =>
              ⟨.ok .CREATED, db2, [], [], [.parseTgApiFailed topic_id]⟩
            | .ok tg =>
              ⟨.ok .CREATED, db2, [], [TgApi.send tg topic.name message], []⟩

/-- `get_messages_handler` (router.rs lines 96-111), for a request whose
`Authorization: Bearer` header was successfully extracted: read
`CONTACT_TOKEN` from the environment (500 when unset), compare the bearer
token (401 on mismatch), then list messages (a lookup error is 404). -/
def get_messages_handler (secret : Option String) (env : Env) (db : Db)
    (topic_id : Nat) (bearerToken : String) :
    Except StatusCode (List Message) :=
  match secret with
  | none => .error .INTERNAL_SERVER_ERROR
  | some token =>
    if bearerToken ≠ token then .error .UNAUTHORIZED
    else if env.listFail then .error .NOT_FOUND
    else .ok (get_messages db topic_id)

/-- The `GET /topics/:topic_id/messages` route including header extraction:
`TypedHeader(Authorization(bearer))` (router.rs line 98) is an
`axum_extra::TypedHeader` extractor, whose rejection for a missing or
malformed `Authorization` header responds with 400 Bad Request
(`TypedHeaderRejection`), before the handler body runs.  `bearer = none`
models a request without a parsable bearer header. -/
def get_messages_route (secret : Option String) (env : Env) (db : Db)
    (topic_id : Nat) (bearer : Option String) :
    Except StatusCode (List Message) :=
  match bearer with
  | none => .error .BAD_REQUEST
  | some tok => get_messages_handler secret env db topic_id tok

/-! Concrete fixtures used to instantiate the theorems below. -/

/-- Environment where every external call succeeds (Telegram answers 200,
serialization succeeds, storage never fails). -/
def envOk : Env := ⟨fun _ => .ok 200, .ok (.obj []), false, false, false, false⟩

/-- Environment where the Telegram liveness check answers 404. -/
def envBadKey : Env :=
  ⟨fun _ => .ok 404, .ok (.obj []), false, false, false, false⟩

/-- Environment where `serde_json::to_value` on the config fails. -/
def envSerFail : Env := ⟨fun _ => .ok 200, .error (), false, false, false, false⟩

/-- Environment where the `get_topic` sqlx call fails with a storage error. -/
def envLookupDown : Env :=
  ⟨fun _ => .ok 200, .ok (.obj []), false, true, false, false⟩

/-- Environment where the `create_message` sqlx call fails with a storage
error. -/
def envInsertDown : Env :=
  ⟨fun _ => .ok 200, .ok (.obj []), false, false, true, false⟩

/-- An empty store. -/
def dbEmpty : Db := ⟨[], [], 0, 0, 0⟩

/-- A store holding one topic (id 0) without a notification config. -/
def dbOneTopic : Db := ⟨[⟨0, "t", none⟩], [], 1, 0, 0⟩

/-- A store holding one topic whose stored notification config is not a
valid `TgApi` shape. -/
def dbBadCfg : Db := ⟨[⟨0, "t", some (.str "oops")⟩], [], 1, 0, 0⟩

/-- A store holding one topic with a valid stored `TgApi` config. -/
def dbGoodCfg : Db :=
  ⟨[⟨0, "t", some (.obj [("api_key", .str "k"), ("chat_id", .str "c")])⟩],
   [], 1, 0, 0⟩

/-! Theorems settling the claims. -/

/-- Claim C1: an ingestion request whose topic identifier does not resolve to an
existing topic fails with not-found and leaves the store unchanged — no
message record is created, nothing is dispatched, nothing is logged. -/
theorem ingest_unknown_topic_not_found (env : Env) (db : Db) (topic_id : Nat)
    (payload : CreateMessageRequest)
    (h : get_topic db topic_id = none) :
    create_message_handler env db topic_id payload =
      ⟨Except.error StatusCode.NOT_FOUND, db, [], [], []⟩ := by
  unfold create_message_handler
  cases hf : env.lookupFail <;> simp [h]

/-- Witness for C1 at a concrete input: topic id 5 is absent from the empty
store and ingestion answers 404 without touching the store. -/
theorem ingest_unknown_topic_not_found_witness :
    get_topic dbEmpty 5 = none ∧
    create_message_handler envOk dbEmpty 5 ⟨.null, "hi"⟩ =
      ⟨Except.error StatusCode.NOT_FOUND, dbEmpty, [], [], []⟩ :=
  ⟨rfl, ingest_unknown_topic_not_found envOk dbEmpty 5 ⟨.null, "hi"⟩ rfl⟩

/-- Claim C2: a topic-creation request carrying a notification config whose
liveness check answers `false` or fails outright is rejected with 400 and
no topic record is created (the store is returned unchanged). -/
theorem create_topic_invalid_config_rejected (env : Env) (db : Db)
    (name : String) (tg : TgApi)
    (h : TgApi.check tg env.net = Except.ok false ∨
         ∃ e, TgApi.check tg env.net = Except.error e) :
    create_topic_handler env db ⟨name, some tg⟩ =
      ⟨Except.error StatusCode.BAD_REQUEST, db,
       [TgApi.checkRequest tg], [], []⟩ := by
  unfold create_topic_handler
  rcases h with h | ⟨e, h⟩ <;> simp [h]

/-- Witness for C2 at a concrete input: the check answers 404 (liveness
`false`) and creation is rejected with the store unchanged. -/
theorem create_topic_invalid_config_rejected_witness :
    TgApi.check ⟨"k", "c"⟩ envBadKey.net = Except.ok false ∧
    create_topic_handler envBadKey dbEmpty ⟨"t", some ⟨"k", "c"⟩⟩ =
      ⟨Except.error StatusCode.BAD_REQUEST, dbEmpty,
       [TgApi.checkRequest ⟨"k", "c"⟩], [], []⟩ :=
  ⟨rfl, create_topic_invalid_config_rejected envBadKey dbEmpty "t" ⟨"k", "c"⟩
    (Or.inl rfl)⟩

/-- Claim C7: a topic-creation request with no notification config performs no
liveness check (no outbound request), succeeds given storage success, and
the created topic's notification capability is absent. -/
theorem create_topic_no_config (env : Env) (db : Db) (name : String)
    (h : env.topicInsertFail = false) :
    create_topic_handler env db ⟨name, none⟩ =
      ⟨Except.ok ⟨db.nextTopicId⟩,
       { db with topics := db.topics ++ [⟨db.nextTopicId, name, none⟩],
                 nextTopicId := db.nextTopicId + 1 },
       [], [], []⟩ := by
  unfold create_topic_handler create_topic
  simp [h]

/-- Witness for C7 at a concrete input: creating topic "t" with no config
on the empty store succeeds, issues no outbound request, and stores a topic
with `tg_api = none`. -/
theorem create_topic_no_config_witness :
    create_topic_handler envOk dbEmpty ⟨"t", none⟩ =
      ⟨Except.ok ⟨0⟩, ⟨[⟨0, "t", none⟩], [], 1, 0, 0⟩, [], [], []⟩ :=
  create_topic_no_config envOk dbEmpty "t" rfl

/-- Claim C10: when the supplied config passes the liveness check but
`serde_json::to_value` fails, `map_or(None, Some)` drops the config —
creation still succeeds and the stored topic has `tg_api = none`. -/
theorem create_topic_serialize_fail_drops_config (env : Env) (db : Db)
    (name : String) (tg : TgApi)
    (hck : TgApi.check tg env.net = Except.ok true)
    (hser : env.to_value_result = Except.error ())
    (hdb : env.topicInsertFail = false) :
    create_topic_handler env db ⟨name, some tg⟩ =
      ⟨Except.ok ⟨db.nextTopicId⟩,
       { db with topics := db.topics ++ [⟨db.nextTopicId, name, none⟩],
                 nextTopicId := db.nextTopicId + 1 },
       [TgApi.checkRequest tg], [], []⟩ := by
  unfold create_topic_handler create_topic
  simp [hck, hser, hdb, Except.toOption]

/-- Witness for C10 at a concrete input: liveness succeeds (200),
serialization fails, and the topic is created with an absent config. -/
theorem create_topic_serialize_fail_drops_config_witness :
    TgApi.check ⟨"k", "c"⟩ envSerFail.net = Except.ok true ∧
    envSerFail.to_value_result = Except.error () ∧
    create_topic_handler envSerFail dbEmpty ⟨"t", some ⟨"k", "c"⟩⟩ =
      ⟨Except.ok ⟨0⟩, ⟨[⟨0, "t", none⟩], [], 1, 0, 0⟩,
       [TgApi.checkRequest ⟨"k", "c"⟩], [], []⟩ :=
  ⟨rfl, rfl,
   create_topic_serialize_fail_drops_config envSerFail dbEmpty "t" ⟨"k", "c"⟩
     rfl rfl rfl⟩

/-- Claim C3: ingesting against an existing topic whose stored config does not
deserialize into `TgApi` logs exactly one warning, dispatches nothing, and
still answers 201 once the message insert succeeded. -/
theorem ingest_malformed_config_still_created (env : Env) (db : Db)
    (topic_id : Nat) (payload : CreateMessageRequest) (topic : Topic)
    (v : Value)
    (ht : get_topic db topic_id = some topic)
    (hv : topic.tg_api = some v)
    (hp : TgApi.try_from v = Except.error ())
    (hlf : env.lookupFail = false)
    (hif : env.insertFail = false) :
    ∃ m db2,
      create_message db payload.contacts payload.text topic_id =
        Except.ok (m, db2) ∧
      create_message_handler env db topic_id payload =
        ⟨Except.ok StatusCode.CREATED, db2, [], [],
         [.parseTgApiFailed topic_id]⟩ ∧
      (LogEntry.parseTgApiFailed topic_id).isWarning = true := by
  refine ⟨⟨db.nextMessageId, db.now, payload.contacts, payload.text, topic_id⟩,
          { db with
              messages := db.messages ++
                [⟨db.nextMessageId, db.now, payload.contacts, payload.text,
                  topic_id⟩],
              nextMessageId := db.nextMessageId + 1,
              now := db.now + 1 },
          ?_, ?_, rfl⟩
  · simp [create_message, ht]
  · unfold create_message_handler
    simp [hlf, ht, hif, create_message, hv, hp]

/-- Witness for C3 at a concrete input: topic 0 stores the non-`TgApi`
config `"oops"`; ingestion persists the message, warns, spawns nothing,
and answers 201. -/
theorem ingest_malformed_config_still_created_witness :
    ∃ m db2,
      create_message dbBadCfg Value.null "hi" 0 = Except.ok (m, db2) ∧
      create_message_handler envOk dbBadCfg 0 ⟨Value.null, "hi"⟩ =
        ⟨Except.ok StatusCode.CREATED, db2, [], [],
         [.parseTgApiFailed 0]⟩ ∧
      (LogEntry.parseTgApiFailed 0).isWarning = true :=
  ingest_malformed_config_still_created envOk dbBadCfg 0 ⟨Value.null, "hi"⟩
    ⟨0, "t", some (.str "oops")⟩ (.str "oops") rfl rfl rfl rfl rfl

/-- Claim C9: ingesting against a topic with a valid stored config persists the
message, detaches exactly one send task for it, and answers 201; the
detached task is returned unexecuted, and for every possible outcome of
the outbound call the value already returned to the ingestion caller is
`201 Created` — the dispatch outcome cannot flow back into it and running
the task only produces a log entry. -/
theorem ingest_valid_config_one_dispatch (env : Env) (db : Db)
    (topic_id : Nat) (payload : CreateMessageRequest) (topic : Topic)
    (v : Value) (tg : TgApi)
    (ht : get_topic db topic_id = some topic)
    (hv : topic.tg_api = some v)
    (hp : TgApi.try_from v = Except.ok tg)
    (hlf : env.lookupFail = false)
    (hif : env.insertFail = false) :
    ∃ m db2,
      create_message db payload.contacts payload.text topic_id =
        Except.ok (m, db2) ∧
      create_message_handler env db topic_id payload =
        ⟨Except.ok StatusCode.CREATED, db2, [],
         [TgApi.send tg topic.name m], []⟩ ∧
      ∀ o : HttpOutcome,
        ((create_message_handler env db topic_id payload).result,
          runSendTask (TgApi.send tg topic.name m) o).1 =
            Except.ok StatusCode.CREATED := by
  refine ⟨⟨db.nextMessageId, db.now, payload.contacts, payload.text, topic_id⟩,
          { db with
              messages := db.messages ++
                [⟨db.nextMessageId, db.now, payload.contacts, payload.text,
                  topic_id⟩],
              nextMessageId := db.nextMessageId + 1,
              now := db.now + 1 },
          ?_, ?_, ?_⟩
  · simp [create_message, ht]
  · unfold create_message_handler
    simp [hlf, ht, hif, create_message, hv, hp]
  · intro o
    unfold create_message_handler
    simp [hlf, ht, hif, create_message, hv, hp]

/-- Witness for C9 at a concrete input: topic 0 stores a valid config;
ingestion persists the message and spawns exactly one send task. -/
theorem ingest_valid_config_one_dispatch_witness :
    ∃ m db2,
      create_message dbGoodCfg Value.null "hi" 0 = Except.ok (m, db2) ∧
      create_message_handler envOk dbGoodCfg 0 ⟨Value.null, "hi"⟩ =
        ⟨Except.ok StatusCode.CREATED, db2, [],
         [TgApi.send ⟨"k", "c"⟩ "t" m], []⟩ ∧
      ∀ o : HttpOutcome,
        ((create_message_handler envOk dbGoodCfg 0 ⟨Value.null, "hi"⟩).result,
          runSendTask (TgApi.send ⟨"k", "c"⟩ "t" m) o).1 =
            Except.ok StatusCode.CREATED :=
  ingest_valid_config_one_dispatch envOk dbGoodCfg 0 ⟨Value.null, "hi"⟩
    ⟨0, "t", some (.obj [("api_key", .str "k"), ("chat_id", .str "c")])⟩
    (.obj [("api_key", .str "k"), ("chat_id", .str "c")]) ⟨"k", "c"⟩
    rfl rfl rfl rfl rfl

/-- Claim C4 fails as stated: a storage failure during the topic lookup is mapped
to 404 by `.map_err(|_| StatusCode::NOT_FOUND)` (router.rs line 72), not to
the claimed 500 — here the topic exists, the lookup fails, and the response
is 404. -/
theorem ingest_lookup_storage_failure_is_404 :
    envLookupDown.lookupFail = true ∧
    get_topic dbOneTopic 0 = some ⟨0, "t", none⟩ ∧
    (create_message_handler envLookupDown dbOneTopic 0
        ⟨Value.null, "x"⟩).result = Except.error StatusCode.NOT_FOUND ∧
    StatusCode.NOT_FOUND ≠ StatusCode.INTERNAL_SERVER_ERROR :=
  ⟨rfl, rfl, rfl, by decide⟩

/-- Claim C4 amended: a storage failure during the message insert is surfaced as
an opaque 500 with an error log and no message record, distinguished from
the 404 of an unknown topic; a storage failure during the topic lookup is
instead collapsed into the 404 not-found response. -/
theorem ingest_storage_failure_statuses (env : Env) (db : Db)
    (topic_id : Nat) (payload : CreateMessageRequest) (topic : Topic)
    (ht : get_topic db topic_id = some topic)
    (hlf : env.lookupFail = false)
    (hif : env.insertFail = true) :
    create_message_handler env db topic_id payload =
      ⟨Except.error StatusCode.INTERNAL_SERVER_ERROR, db, [], [],
       [.createMessageFailed]⟩ ∧
    ∀ env2 : Env, env2.lookupFail = true →
      create_message_handler env2 db topic_id payload =
        ⟨Except.error StatusCode.NOT_FOUND, db, [], [], []⟩ := by
  constructor
  · unfold create_message_handler
    simp [hlf, ht, hif]
  · intro env2 h2
    unfold create_message_handler
    simp [h2]

/-- Witness for the amended C4 at a concrete input: with the insert failing
the response is 500 and the store unchanged; with the lookup failing it is
404. -/
theorem ingest_storage_failure_statuses_witness :
    (create_message_handler envInsertDown dbOneTopic 0 ⟨Value.null, "x"⟩ =
      ⟨Except.error StatusCode.INTERNAL_SERVER_ERROR, dbOneTopic, [], [],
       [.createMessageFailed]⟩) ∧
    ∀ env2 : Env, env2.lookupFail = true →
      create_message_handler env2 dbOneTopic 0 ⟨Value.null, "x"⟩ =
        ⟨Except.error StatusCode.NOT_FOUND, dbOneTopic, [], [], []⟩ :=
  ingest_storage_failure_statuses envInsertDown dbOneTopic 0 ⟨Value.null, "x"⟩
    ⟨0, "t", none⟩ rfl rfl rfl

/-- Claim C5 fails as stated for the missing-header case: a request without an
`Authorization` header never reaches the handler — the `TypedHeader`
extractor rejects it with 400 Bad Request, not 401. -/
theorem list_missing_header_is_400 :
    get_messages_route (some "secret") envOk dbEmpty 0 none =
      Except.error StatusCode.BAD_REQUEST ∧
    StatusCode.BAD_REQUEST ≠ StatusCode.UNAUTHORIZED :=
  ⟨rfl, by decide⟩

/-- Claim C5 amended: with the shared secret configured, every request presenting
a bearer token different from the secret is answered 401 with no message
content, for any topic state; a request with a missing (or unparsable)
`Authorization` header is rejected with 400 by header extraction instead. -/
theorem list_wrong_token_unauthorized (secret : String) (env : Env)
    (db : Db) (topic_id : Nat) (tok : String)
    (h : tok ≠ secret) :
    get_messages_route (some secret) env db topic_id (some tok) =
      Except.error StatusCode.UNAUTHORIZED := by
  simp [get_messages_route, get_messages_handler, h]

/-- Witness for the amended C5 at a concrete input: token "wrong" against
secret "secret" yields 401. -/
theorem list_wrong_token_unauthorized_witness :
    get_messages_route (some "secret") envOk dbEmpty 0 (some "wrong") =
      Except.error StatusCode.UNAUTHORIZED :=
  list_wrong_token_unauthorized "secret" envOk dbEmpty 0 "wrong" (by decide)

/-- Claim C6: starting from a store whose topic has no messages yet, inserting
m1 then m2 then m3 for it makes the listing return `[m3, m2, m1]`, with
strictly descending creation times. -/
theorem list_messages_desc (db : Db) (topic_id : Nat)
    (c1 c2 c3 : Value) (t1 t2 t3 : String)
    (m1 m2 m3 : Message) (db1 db2 db3 : Db)
    (hm : db.messages.filter (fun m => m.topic_id == topic_id) = [])
    (h1 : create_message db c1 t1 topic_id = Except.ok (m1, db1))
    (h2 : create_message db1 c2 t2 topic_id = Except.ok (m2, db2))
    (h3 : create_message db2 c3 t3 topic_id = Except.ok (m3, db3)) :
    get_messages db3 topic_id = [m3, m2, m1] ∧
      m2.created_at < m3.created_at ∧ m1.created_at < m2.created_at := by
  rw [create_message] at h1
  rcases hg1 : get_topic db topic_id with _ | t1'
  · rw [hg1] at h1; simp at h1
  rw [hg1] at h1
  simp only [Except.ok.injEq, Prod.mk.injEq] at h1
  obtain ⟨hm1, hdb1⟩ := h1
  subst hm1 hdb1
  rw [create_message] at h2
  rcases hg2 : get_topic
      { db with
          messages := db.messages ++
            [⟨db.nextMessageId, db.now, c1, t1, topic_id⟩],
          nextMessageId := db.nextMessageId + 1,
          now := db.now + 1 } topic_id with _ | t2'
  · rw [show get_topic
        { db with
            messages := db.messages ++
              [⟨db.nextMessageId, db.now, c1, t1, topic_id⟩],
            nextMessageId := db.nextMessageId + 1,
            now := db.now + 1 } topic_id = get_topic db topic_id from rfl,
      hg1] at hg2
    simp at hg2
  rw [hg2] at h2
  simp only [Except.ok.injEq, Prod.mk.injEq] at h2
  obtain ⟨hm2, hdb2⟩ := h2
  subst hm2 hdb2
  rw [create_message] at h3
  rcases hg3 : get_topic
      { db with
          messages := (db.messages ++
              [⟨db.nextMessageId, db.now, c1, t1, topic_id⟩]) ++
            [⟨db.nextMessageId + 1, db.now + 1, c2, t2, topic_id⟩],
          nextMessageId := db.nextMessageId + 1 + 1,
          now := db.now + 1 + 1 } topic_id with _ | t3'
  · rw [show get_topic
        { db with
            messages := (db.messages ++
                [⟨db.nextMessageId, db.now, c1, t1, topic_id⟩]) ++
              [⟨db.nextMessageId + 1, db.now + 1, c2, t2, topic_id⟩],
            nextMessageId := db.nextMessageId + 1 + 1,
            now := db.now + 1 + 1 } topic_id = get_topic db topic_id from rfl,
      hg1] at hg3
    simp at hg3
  rw [hg3] at h3
  simp only [Except.ok.injEq, Prod.mk.injEq] at h3
  obtain ⟨hm3, hdb3⟩ := h3
  subst hm3 hdb3
  refine ⟨?_, by simp, by simp⟩
  have hno1 : ¬ (db.now + 1 ≤ db.now) := by omega
  have hno2 : ¬ (db.now + 2 ≤ db.now) := by omega
  have hno3 : ¬ (db.now + 1 + 1 ≤ db.now + 1) := by omega
  simp [get_messages, List.filter_append, hm, sortDesc, insertDesc,
    hno1, hno2, hno3]

/-- Witness for C6 at a concrete input: three messages inserted in order
into topic 0 list back newest first. -/
theorem list_messages_desc_witness :
    get_messages ⟨[⟨0, "t", none⟩],
      [⟨0, 0, Value.null, "a", 0⟩, ⟨1, 1, Value.null, "b", 0⟩,
       ⟨2, 2, Value.null, "c", 0⟩], 1, 3, 3⟩ 0 =
      [⟨2, 2, Value.null, "c", 0⟩, ⟨1, 1, Value.null, "b", 0⟩,
       ⟨0, 0, Value.null, "a", 0⟩] ∧
    (1 : Nat) < 2 ∧ (0 : Nat) < 1 :=
  list_messages_desc dbOneTopic 0 Value.null Value.null Value.null "a" "b" "c"
    ⟨0, 0, Value.null, "a", 0⟩ ⟨1, 1, Value.null, "b", 0⟩
    ⟨2, 2, Value.null, "c", 0⟩
    ⟨[⟨0, "t", none⟩], [⟨0, 0, Value.null, "a", 0⟩], 1, 1, 1⟩
    ⟨[⟨0, "t", none⟩], [⟨0, 0, Value.null, "a", 0⟩,
      ⟨1, 1, Value.null, "b", 0⟩], 1, 2, 2⟩
    ⟨[⟨0, "t", none⟩], [⟨0, 0, Value.null, "a", 0⟩,
      ⟨1, 1, Value.null, "b", 0⟩, ⟨2, 2, Value.null, "c", 0⟩], 1, 3, 3⟩
    rfl rfl rfl rfl

/-- Claim C8: the wire contract — the liveness check is a GET to
`{TELEGRAM_API_URL}{api_key}/getMe` whose `Ok(true)` outcome is exactly a
2xx status, and the send task POSTs to
`{TELEGRAM_API_URL}{api_key}/sendMessage` with JSON body
`{chat_id: chat_id, text: body}` where the body combines the topic name,
the message text, and the rendered string of the message contacts. -/
theorem telegram_wire_contract (tg : TgApi) (name : String) (m : Message)
    (s : Nat) :
    TgApi.checkRequest tg =
      ⟨Method.GET, TELEGRAM_API_URL ++ tg.api_key ++ "/getMe", none⟩ ∧
    (TgApi.check tg (fun _ => Except.ok s) = Except.ok true ↔
      (200 ≤ s ∧ s ≤ 299)) ∧
    TgApi.send tg name m =
      ⟨⟨Method.POST, TELEGRAM_API_URL ++ tg.api_key ++ "/sendMessage",
        some (.obj [("chat_id", .str tg.chat_id),
          ("text", .str ("Topic: " ++ name ++ "\nText: " ++ m.text ++
            "\nContacts: " ++ Value.render m.contacts))])⟩, m.id⟩ := by
  refine ⟨rfl, ?_, rfl⟩
  simp [TgApi.check, statusIsSuccess]

end Ideas
